import Mathlib

/-!
Verification of the Bulk Dispatch Engine of this repository.

The definitions below are a shallow embedding of the TypeScript sources:
  - src/services/csvProcessor.ts  (formatMobileNumber, getOptimalConfig,
    processBulkMessagesInBackground, processBatchWithConcurrency)
  - src/services/whatsapp.ts      (the response-validation block shared by
    sendText, sendImage, sendDocument and sendDocumentByMediaId)
  - src/routes/send.ts            (the csv-bulk-document route inline engine)
  - src/models/MessageLog.ts and src/models/BulkOperation.ts (record shapes)

Stateful code is modelled by explicit state passing; thrown JavaScript
exceptions are modelled with Except; the external gateway and the document
store are modelled as oracle parameters (per-attempt results, per-write
success flags) so that every control-flow path of the source is a value
of the embedding.
-/

namespace BulkDispatch

/-- Delivery status of a MessageLog document, per the enum in
src/models/MessageLog.ts. -/
inductive MsgStatus
  | QUEUED
  | SENT
  | FAILED
  | DELIVERED
  | READ
  | UPLOADED
deriving DecidableEq, Repr

/-- Lifecycle state of a BulkOperation document, per the enum in
src/models/BulkOperation.ts. -/
inductive OpStatus
  | PENDING
  | PROCESSING
  | COMPLETED
  | FAILED
deriving DecidableEq, Repr

/-- The configuration object returned by getOptimalConfig in
src/services/csvProcessor.ts (field names follow the source object). -/
structure ProcConfig where
  CONCURRENCY_LIMIT : Nat
  BATCH_SIZE : Nat
  RATE_LIMIT_DELAY : Nat
deriving DecidableEq, Repr

/-- getOptimalConfig (src/services/csvProcessor.ts, lines 174-188):
tiered concurrency plan chosen from the recipient count. -/
def getOptimalConfig (messageCount : Nat) : ProcConfig :=
  if messageCount ≤ 20 then ⟨2, 5, 200⟩
  else if messageCount ≤ 50 then ⟨3, 8, 150⟩
  else if messageCount ≤ 200 then ⟨5, 15, 100⟩
  else if messageCount ≤ 500 then ⟨8, 25, 75⟩
  else if messageCount ≤ 1000 then ⟨10, 40, 50⟩
  else ⟨12, 60, 25⟩

/-- The slicing loop
  for (let i = 0; i < xs.length; i += b) out.push(xs.slice(i, i + b))
used both to build batches (with BATCH_SIZE) and concurrency chunks (with
CONCURRENCY_LIMIT) in src/services/csvProcessor.ts and src/routes/send.ts.
The source loop never terminates when b = 0; callers always pass b > 0,
and the embedding returns [] in that unreachable case. -/
def batches : List α → Nat → List (List α)
  | _, 0 => []
  | [], _ + 1 => []
  | x :: xs, b + 1 => (x :: xs).take (b + 1) :: batches (xs.drop b) (b + 1)
termination_by xs _ => xs.length
decreasing_by simp [List.length_drop]; omega

theorem batches_nil (b : Nat) : (batches [] b : List (List α)) = [] := by
  cases b <;> simp [batches]

theorem batches_cons (x : α) (xs : List α) (b : Nat) :
    batches (x :: xs) (b + 1) = (x :: xs).take (b + 1) :: batches (xs.drop b) (b + 1) := by
  simp [batches]

theorem batches_join (xs : List α) (b : Nat) : 0 < b → (batches xs b).flatten = xs := by
  induction xs, b using batches.induct with
  | case1 xs => intro h; exact absurd h (by omega)
  | case2 b => intro _; simp [batches_nil]
  | case3 x xs b ih =>
    intro _
    rw [batches_cons, List.flatten_cons, ih (Nat.succ_pos b)]
    exact List.take_append_drop (b + 1) (x :: xs)

theorem batches_mem_length (xs : List α) (b : Nat) :
    ∀ c ∈ batches xs b, 1 ≤ c.length ∧ c.length ≤ b := by
  induction xs, b using batches.induct with
  | case1 xs => simp [batches]
  | case2 b => simp [batches_nil]
  | case3 x xs b ih =>
    intro c hc
    rw [batches_cons] at hc
    rcases List.mem_cons.mp hc with rfl | hc
    · refine ⟨?_, ?_⟩ <;> (simp only [List.length_take, List.length_cons]; omega)
    · exact ih c hc

theorem batches_dropLast_length (xs : List α) (b : Nat) :
    ∀ c ∈ (batches xs b).dropLast, c.length = b := by
  induction xs, b using batches.induct with
  | case1 xs => simp [batches]
  | case2 b => simp [batches_nil]
  | case3 x xs b ih =>
    intro c hc
    rw [batches_cons] at hc
    cases ht : batches (xs.drop b) (b + 1) with
    | nil => rw [ht] at hc; simp at hc
    | cons c2 t2 =>
      rw [ht] at hc
      rw [List.dropLast_cons₂] at hc
      rcases List.mem_cons.mp hc with rfl | hc
      · have hne : xs.drop b ≠ [] := by
          intro h
          rw [h, batches_nil] at ht
          exact List.noConfusion ht
        have hlen : b < xs.length := by
          by_contra hcon
          exact hne (List.drop_eq_nil_of_le (by omega))
        simp [List.length_take]
        omega
      · exact ih c (by rw [ht]; exact hc)

/-- formatMobileNumber (src/services/csvProcessor.ts, lines 105-115):
strip every non-digit character; when exactly 10 digits remain, a leading
1 country code is added. -/
def formatMobileNumber (number : String) : String :=
  let cleanNumber := String.mk (number.data.filter (fun c => c.isDigit))
  if cleanNumber.length = 10 then "1" ++ cleanNumber else cleanNumber

/-- Error taxonomy of the specification (transient vs permanent). The
source error values do not carry this distinction; the embedding tags each
failed gateway attempt so that theorems can quantify over both kinds and
observe whether the code treats them differently. -/
inductive ErrKind
  | transient
  | permanent
deriving DecidableEq, Repr

/-- Result of one gateway attempt for one recipient: either a response
carrying a WhatsApp message id, or a thrown error. -/
inductive AttemptResult
  | ok (waMessageId : String)
  | err (kind : ErrKind) (detail : String)
deriving DecidableEq, Repr

/-- const maxRetries = 2 (src/services/csvProcessor.ts, line 333). -/
def maxRetries : Nat := 2

/-- Observable trace of the per-recipient retry loop: the value produced
(message id) or the error finally re-thrown, the number of gateway
attempts made, and the backoff waits (in ms) performed between attempts. -/
structure RetryRun where
  outcome : Except (ErrKind × String) String
  attemptsMade : Nat
  waitsMs : List Nat

/-- The while-loop of src/services/csvProcessor.ts lines 335-361, started
at a given value of the retries counter. The attempt with index r is made
while retries = r; on error the counter becomes r + 1, the error is
re-thrown when r + 1 > maxRetries, and otherwise the loop sleeps
2 ^ (r + 1) * 1000 ms and tries again. Every caught error is retried:
the source catch block does not inspect the error. -/
def retryFrom (attempts : Nat → AttemptResult) (r : Nat) : RetryRun :=
  match attempts r with
  | .ok waMessageId => { outcome := .ok waMessageId, attemptsMade := r + 1, waitsMs := [] }
  | .err kind detail =>
    if r + 1 > maxRetries then
      { outcome := .error (kind, detail), attemptsMade := r + 1, waitsMs := [] }
    else
      let rest := retryFrom attempts (r + 1)
      { rest with waitsMs := 2 ^ (r + 1) * 1000 :: rest.waitsMs }
termination_by maxRetries + 1 - r
decreasing_by simp only [maxRetries] at *; omega

/-- The retry loop as entered by the worker: retries starts at 0. -/
def sendWithRetry (attempts : Nat → AttemptResult) : RetryRun :=
  retryFrom attempts 0

/-- The fields of a MessageLog document that the bulk engine reads or
writes (src/models/MessageLog.ts). The source field named to is rendered
toNumber here because to is a reserved word in Lean. -/
structure MessageLog where
  toNumber : String
  type : String
  status : MsgStatus
  waMessageId : Option String
  error : Option String
  retryCount : Nat
deriving DecidableEq, Repr

/-- A freshly inserted QUEUED log: the insertMany documents of
src/services/csvProcessor.ts lines 292-311 set to, type, status and
department; retryCount takes the schema default 0
(src/models/MessageLog.ts, line 40). -/
def newQueuedLog (toNumber : String) (type : String) : MessageLog :=
  { toNumber := toNumber, type := type, status := .QUEUED, waMessageId := none,
    error := none, retryCount := 0 }

/-- The bulkUpdates entry built for one worker result
(src/services/csvProcessor.ts lines 363-396): on success a $set of
status SENT and waMessageId, on failure a $set of status FAILED and the
error detail. No other field is written; in particular retryCount is
never touched. -/
def applyOutcome (log : MessageLog) (outcome : Except (ErrKind × String) String) : MessageLog :=
  match outcome with
  | .ok waMessageId => { log with status := .SENT, waMessageId := some waMessageId }
  | .error e => { log with status := .FAILED, error := some e.2 }

/-- Claim C4: the concurrency plan is the pure, deterministic, total
function of the recipient count given by the tier table, and for every n
the planned batch size times the planned concurrency width is positive.
(The source triple is written (CONCURRENCY_LIMIT, BATCH_SIZE,
RATE_LIMIT_DELAY); the claim lists (batchSize, concurrencyWidth, delay).) -/
theorem getOptimalConfig_plan (n : Nat) :
    (n ≤ 20 → getOptimalConfig n = ⟨2, 5, 200⟩)
    ∧ (20 < n → n ≤ 50 → getOptimalConfig n = ⟨3, 8, 150⟩)
    ∧ (50 < n → n ≤ 200 → getOptimalConfig n = ⟨5, 15, 100⟩)
    ∧ (200 < n → n ≤ 500 → getOptimalConfig n = ⟨8, 25, 75⟩)
    ∧ (500 < n → n ≤ 1000 → getOptimalConfig n = ⟨10, 40, 50⟩)
    ∧ (1000 < n → getOptimalConfig n = ⟨12, 60, 25⟩)
    ∧ 0 < (getOptimalConfig n).BATCH_SIZE * (getOptimalConfig n).CONCURRENCY_LIMIT := by
  unfold getOptimalConfig
  refine ⟨?_, ?_, ?_, ?_, ?_, ?_, ?_⟩
  · intro h; simp [h]
  · intro h1 h2; rw [if_neg (by omega), if_pos h2]
  · intro h1 h2; rw [if_neg (by omega), if_neg (by omega), if_pos h2]
  · intro h1 h2; rw [if_neg (by omega), if_neg (by omega), if_neg (by omega), if_pos h2]
  · intro h1 h2
    rw [if_neg (by omega), if_neg (by omega), if_neg (by omega), if_neg (by omega), if_pos h2]
  · intro h1
    rw [if_neg (by omega), if_neg (by omega), if_neg (by omega), if_neg (by omega),
      if_neg (by omega)]
  · split
    · decide
    · split
      · decide
      · split
        · decide
        · split
          · decide
          · split <;> decide

/-- Witness for C4: the plan at 100 recipients. -/
theorem getOptimalConfig_plan_witness :
    getOptimalConfig 100 = ⟨5, 15, 100⟩ :=
  (getOptimalConfig_plan 100).2.2.1 (by decide) (by decide)

/-- Claim C5: for every recipient list and every positive batch size, the
slicing loop partitions the list: the concatenation of the batches is the
input list (order preserved, each recipient in exactly one batch, sizes
summing to the input length), every batch except possibly the last has
exactly b elements, and every batch (the last included) has between 1 and
b elements. -/
theorem batches_partition (xs : List α) (b : Nat) (hb : 0 < b) :
    (batches xs b).flatten = xs
    ∧ (∀ c ∈ (batches xs b).dropLast, c.length = b)
    ∧ (∀ c ∈ batches xs b, 1 ≤ c.length ∧ c.length ≤ b) :=
  ⟨batches_join xs b hb, batches_dropLast_length xs b, batches_mem_length xs b⟩

/-- Witness for C5: seven recipients in batches of three. -/
theorem batches_partition_witness :
    (batches [10, 11, 12, 13, 14, 15, 16] 3).flatten = [10, 11, 12, 13, 14, 15, 16]
    ∧ (∀ c ∈ (batches [10, 11, 12, 13, 14, 15, 16] 3).dropLast, c.length = 3)
    ∧ (∀ c ∈ batches [10, 11, 12, 13, 14, 15, 16] 3, 1 ≤ c.length ∧ c.length ≤ 3) :=
  batches_partition [10, 11, 12, 13, 14, 15, 16] 3 (by decide)

theorem retryFrom_ok (attempts : Nat → AttemptResult) (r : Nat) (waMessageId : String)
    (h : attempts r = .ok waMessageId) :
    retryFrom attempts r =
      { outcome := .ok waMessageId, attemptsMade := r + 1, waitsMs := [] } := by
  rw [retryFrom, h]

theorem retryFrom_err_last (attempts : Nat → AttemptResult) (r : Nat) (kind : ErrKind)
    (detail : String) (h : attempts r = .err kind detail) (hr : maxRetries < r + 1) :
    retryFrom attempts r =
      { outcome := .error (kind, detail), attemptsMade := r + 1, waitsMs := [] } := by
  rw [retryFrom, h]
  simp only [gt_iff_lt, if_pos hr]

theorem retryFrom_err_retry (attempts : Nat → AttemptResult) (r : Nat) (kind : ErrKind)
    (detail : String) (h : attempts r = .err kind detail) (hr : r + 1 ≤ maxRetries) :
    retryFrom attempts r =
      { outcome := (retryFrom attempts (r + 1)).outcome,
        attemptsMade := (retryFrom attempts (r + 1)).attemptsMade,
        waitsMs := 2 ^ (r + 1) * 1000 :: (retryFrom attempts (r + 1)).waitsMs } := by
  rw [retryFrom, h]
  simp only [gt_iff_lt, if_neg (by omega : ¬ maxRetries < r + 1)]

/-- An attempt stream that always fails with a permanent
(non-retry-eligible, per the specification) error. -/
def permFailAttempts : Nat → AttemptResult :=
  fun _ => .err .permanent "Invalid phone number format"

/-- Counterexample to claim C2 as stated: a recipient whose first attempt
fails with a permanent error is NOT closed after a single attempt; the
catch block of the retry loop retries every error without inspecting it,
so the engine makes 3 attempts. -/
theorem retry_permanent_cex :
    (∀ r, permFailAttempts r = .err .permanent "Invalid phone number format")
    ∧ (sendWithRetry permFailAttempts).attemptsMade = 3
    ∧ ¬ (sendWithRetry permFailAttempts).attemptsMade = 1 := by
  have e2 := retryFrom_err_last permFailAttempts 2 .permanent
    "Invalid phone number format" rfl (by decide)
  have e1 := retryFrom_err_retry permFailAttempts 1 .permanent
    "Invalid phone number format" rfl (by decide)
  have e0 := retryFrom_err_retry permFailAttempts 0 .permanent
    "Invalid phone number format" rfl (by decide)
  refine ⟨fun r => rfl, ?_, ?_⟩ <;>
    simp [sendWithRetry, e0, e1, e2]

/-- Claim C2, amended: the retry loop does not distinguish transient from
permanent errors. A recipient whose every attempt fails - with either
error kind - is attempted exactly maxRetries + 1 = 3 times, with a wait of
2 ^ attempt seconds before retry attempt number attempt (attempt starting
at 1), and is then marked FAILED; in particular a permanent first-attempt
failure is retried exactly like a transient one instead of closing the
recipient after one attempt. -/
theorem retry_all_failures (attempts : Nat → AttemptResult)
    (h : ∀ r, r ≤ maxRetries → ∃ kind detail, attempts r = .err kind detail) :
    (sendWithRetry attempts).attemptsMade = maxRetries + 1
    ∧ (sendWithRetry attempts).waitsMs = [2 ^ 1 * 1000, 2 ^ 2 * 1000]
    ∧ (∃ kind detail, (sendWithRetry attempts).outcome = .error (kind, detail))
    ∧ ∀ log, (applyOutcome log (sendWithRetry attempts).outcome).status = .FAILED := by
  obtain ⟨k0, d0, h0⟩ := h 0 (by decide)
  obtain ⟨k1, d1, h1⟩ := h 1 (by decide)
  obtain ⟨k2, d2, h2⟩ := h 2 (by decide)
  have e2 := retryFrom_err_last attempts 2 k2 d2 h2 (by decide)
  have e1 := retryFrom_err_retry attempts 1 k1 d1 h1 (by decide)
  have e0 := retryFrom_err_retry attempts 0 k0 d0 h0 (by decide)
  refine ⟨?_, ?_, ⟨k2, d2, ?_⟩, ?_⟩ <;>
    simp [sendWithRetry, e0, e1, e2, maxRetries, applyOutcome]

/-- Witness for the amended C2 at a concrete all-transient stream. -/
theorem retry_all_failures_witness :
    (sendWithRetry (fun _ => .err .transient "Request timed out")).attemptsMade = maxRetries + 1
    ∧ (sendWithRetry (fun _ => .err .transient "Request timed out")).waitsMs
        = [2 ^ 1 * 1000, 2 ^ 2 * 1000]
    ∧ (∃ kind detail,
        (sendWithRetry (fun _ => .err .transient "Request timed out")).outcome
          = .error (kind, detail))
    ∧ ∀ log,
        (applyOutcome log
          (sendWithRetry (fun _ => .err .transient "Request timed out")).outcome).status
            = .FAILED :=
  retry_all_failures (fun _ => .err .transient "Request timed out")
    (fun _ _ => ⟨.transient, "Request timed out", rfl⟩)

/-- Scenario C attempt stream: the first two attempts fail transiently,
the third succeeds. -/
def scenarioCAttempts : Nat → AttemptResult
  | 0 => .err .transient "Request timed out"
  | 1 => .err .transient "Request timed out"
  | _ => .ok "wamid.SCENARIO.C"

/-- Scenario D attempt stream: every attempt fails transiently. -/
def scenarioDAttempts : Nat → AttemptResult :=
  fun _ => .err .transient "Request timed out"

/-- The final Dispatch Record of a one-recipient operation: the single
batch holds one recipient, the single chunk maps it to worker index 0 and
createdLogs[0] is its own record, so the record written is the QUEUED log
for the normalized number with the outcome of the retry loop applied
(src/services/csvProcessor.ts lines 292-396). -/
def singleRecipientFinalLog (raw : String) (type : String)
    (attempts : Nat → AttemptResult) : MessageLog :=
  applyOutcome (newQueuedLog (formatMobileNumber raw) type) (sendWithRetry attempts).outcome

theorem scenarioC_run :
    sendWithRetry scenarioCAttempts =
      { outcome := .ok "wamid.SCENARIO.C", attemptsMade := 3,
        waitsMs := [2 ^ 1 * 1000, 2 ^ 2 * 1000] } := by
  have e2 := retryFrom_ok scenarioCAttempts 2 "wamid.SCENARIO.C" rfl
  have e1 := retryFrom_err_retry scenarioCAttempts 1 .transient "Request timed out" rfl (by decide)
  have e0 := retryFrom_err_retry scenarioCAttempts 0 .transient "Request timed out" rfl (by decide)
  simp [sendWithRetry, e0, e1, e2]

theorem scenarioD_run :
    sendWithRetry scenarioDAttempts =
      { outcome := .error (.transient, "Request timed out"), attemptsMade := 3,
        waitsMs := [2 ^ 1 * 1000, 2 ^ 2 * 1000] } := by
  have e2 := retryFrom_err_last scenarioDAttempts 2 .transient "Request timed out" rfl (by decide)
  have e1 := retryFrom_err_retry scenarioDAttempts 1 .transient "Request timed out" rfl (by decide)
  have e0 := retryFrom_err_retry scenarioDAttempts 0 .transient "Request timed out" rfl (by decide)
  simp [sendWithRetry, e0, e1, e2]

/-- Counterexample to claim C8 as stated: in both scenario C (two
transient failures then success) and scenario D (three transient
failures) the final Dispatch Record carries retryCount = 0, not 2 - the
engine bulk updates $set only status, waMessageId / error and updatedAt,
never retryCount, which keeps its schema default 0. -/
theorem scenario_retryCount_cex :
    (singleRecipientFinalLog "15551234567" "TEXT" scenarioCAttempts).retryCount = 0
    ∧ ¬ (singleRecipientFinalLog "15551234567" "TEXT" scenarioCAttempts).retryCount = 2
    ∧ (singleRecipientFinalLog "15551234567" "TEXT" scenarioDAttempts).retryCount = 0
    ∧ ¬ (singleRecipientFinalLog "15551234567" "TEXT" scenarioDAttempts).retryCount = 2 := by
  refine ⟨?_, ?_, ?_, ?_⟩ <;>
    simp [singleRecipientFinalLog, scenarioC_run, scenarioD_run, applyOutcome, newQueuedLog]

/-- Claim C8, amended: after two transient failures and a third successful
attempt the final Dispatch Record has status SENT (and records the
returned message id); after three transient failures it has status FAILED
with a non-empty error detail. In both cases retryCount remains 0, the
schema default, because the engine never writes that field. -/
theorem scenario_final_records :
    ((singleRecipientFinalLog "15551234567" "TEXT" scenarioCAttempts).status = .SENT
      ∧ (singleRecipientFinalLog "15551234567" "TEXT" scenarioCAttempts).waMessageId
          = some "wamid.SCENARIO.C"
      ∧ (singleRecipientFinalLog "15551234567" "TEXT" scenarioCAttempts).retryCount = 0
      ∧ (sendWithRetry scenarioCAttempts).attemptsMade = 3)
    ∧ ((singleRecipientFinalLog "15551234567" "TEXT" scenarioDAttempts).status = .FAILED
      ∧ (singleRecipientFinalLog "15551234567" "TEXT" scenarioDAttempts).error
          = some "Request timed out"
      ∧ ¬ (singleRecipientFinalLog "15551234567" "TEXT" scenarioDAttempts).error = some ""
      ∧ (singleRecipientFinalLog "15551234567" "TEXT" scenarioDAttempts).retryCount = 0
      ∧ (sendWithRetry scenarioDAttempts).attemptsMade = 3) := by
  refine ⟨⟨?_, ?_, ?_, ?_⟩, ⟨?_, ?_, ?_, ?_, ?_⟩⟩ <;>
    simp [singleRecipientFinalLog, scenarioC_run, scenarioD_run, applyOutcome, newQueuedLog]

/-- One entry of the messages array of a gateway response; id is absent
when the provider returned no message identifier (JavaScript undefined)
and may also be the empty string, which the source treats as falsy. -/
structure WAMessage where
  id : Option String
deriving DecidableEq, Repr

/-- The response body (res.data) of a gateway send call; messages is
absent when the body has no messages array. -/
structure WAResponseData where
  messages : Option (List WAMessage)
deriving DecidableEq, Repr

/-- The response-validation block shared verbatim by sendText (lines
62-72), sendImage, sendDocument and sendDocumentByMediaId (lines 370-381)
in src/services/whatsapp.ts: a transport-level success is accepted only
when res.data.messages exists, is non-empty, and its first entry has a
truthy id; otherwise an Error is thrown (which the callers catch and
convert into a FAILED record). -/
def checkSendResponse (data : WAResponseData) : Except String WAResponseData :=
  match data.messages with
  | some (m :: _) =>
    match m.id with
    | some waMessageId =>
      if waMessageId = "" then
        .error "WhatsApp API returned no message ID - number may not be registered on WhatsApp"
      else
        .ok data
    | none =>
      .error "WhatsApp API returned no message ID - number may not be registered on WhatsApp"
  | some [] =>
    .error "WhatsApp API returned invalid response - number may not be registered on WhatsApp"
  | none =>
    .error "WhatsApp API returned invalid response - number may not be registered on WhatsApp"

/-- Claim C7: a transport-level success whose body lacks a message
identifier (no messages array, an empty messages array, or a first
message without an id) is turned into a raised error - never a success -
and an error outcome is recorded as a FAILED Dispatch Record. -/
theorem malformed_success_rejected (data : WAResponseData)
    (h : data.messages = none
      ∨ data.messages = some []
      ∨ ∃ m rest, data.messages = some (m :: rest) ∧ (m.id = none ∨ m.id = some "")) :
    (∃ e, checkSendResponse data = .error e ∧ ¬ e = "")
    ∧ (∀ r, ¬ checkSendResponse data = .ok r)
    ∧ ∀ log kind e, (applyOutcome log (.error (kind, e))).status = .FAILED := by
  refine ⟨?_, ?_, fun log kind e => by simp [applyOutcome]⟩
  · rcases h with h | h | ⟨m, rest, h, hid | hid⟩
    · simp [checkSendResponse, h]
    · simp [checkSendResponse, h]
    · simp [checkSendResponse, h, hid]
    · simp [checkSendResponse, h, hid]
  · intro r hr
    rcases h with h | h | ⟨m, rest, h, hid | hid⟩
    · simp [checkSendResponse, h] at hr
    · simp [checkSendResponse, h] at hr
    · simp [checkSendResponse, h, hid] at hr
    · simp [checkSendResponse, h, hid] at hr

/-- Witness for C7: a body whose messages array is empty. -/
theorem malformed_success_rejected_witness :
    (∃ e, checkSendResponse ⟨some []⟩ = .error e ∧ ¬ e = "")
    ∧ (∀ r, ¬ checkSendResponse ⟨some []⟩ = .ok r)
    ∧ ∀ log kind e, (applyOutcome log (.error (kind, e))).status = .FAILED :=
  malformed_success_rejected ⟨some []⟩ (Or.inr (Or.inl rfl))

/-- The list of record indices targeted by the workers of one batch, in
worker order. In processBatchWithConcurrency
(src/services/csvProcessor.ts line 325) each worker receives the INDEX OF
ITS CHUNK POSITION from chunk.map((mobileNumber, index) => ...) and reads
messageLog = createdLogs[index], so the targeted index restarts at 0 for
every concurrency chunk. -/
def workerTargets (batch : List String) (concurrencyLimit : Nat) : List Nat :=
  ((batches batch concurrencyLimit).map (fun chunk => List.range chunk.length)).flatten

/-- The raw strings handed to the gateway send calls, in worker order:
each worker sends to the un-normalized chunk element
(src/services/csvProcessor.ts lines 325-350). -/
def sendArgs (batch : List String) (concurrencyLimit : Nat) : List String :=
  (batches batch concurrencyLimit).flatten

/-- The QUEUED logs inserted for a batch before dispatch, one per
recipient in batch order, with the NORMALIZED number
(src/services/csvProcessor.ts lines 292-311). -/
def createdLogs (batch : List String) (type : String) : List MessageLog :=
  batch.map (fun mobileNumber => newQueuedLog (formatMobileNumber mobileNumber) type)

/-- The final state of the created logs of one batch after every worker
has pushed its update and the updates have been applied: worker p (in
worker order) applies its outcome to the record at workerTargets[p]. -/
def processBatchLogs (batch : List String) (concurrencyLimit : Nat) (type : String)
    (attempts : Nat → Nat → AttemptResult) : List MessageLog :=
  let outcomes := (List.range batch.length).map
    (fun p => (sendWithRetry (attempts p)).outcome)
  ((workerTargets batch concurrencyLimit).zip outcomes).foldl
    (fun logs pt =>
      match logs[pt.1]? with
      | some log => logs.set pt.1 (applyOutcome log pt.2)
      | none => logs)
    (createdLogs batch type)

/-- A three-recipient operation: getOptimalConfig 3 yields
CONCURRENCY_LIMIT 2, so the chunks are [r1, r2] and [r3]. -/
def threeRecipients : List String :=
  ["15551234001", "15551234002", "15551234003"]

/-- Claim C1 is violated by the code (code bug): in
processBatchWithConcurrency the callback index of chunk.map is local to
the concurrency chunk, so with three recipients and width 2 the worker
order targets record indices [0, 1, 0]: the worker that sent to the third
recipient updates the FIRST recipient record, the first record is updated
twice, and the third record is never updated - it stays QUEUED forever.
(No record is deleted: the log list keeps its length.) -/
theorem record_keying_bug :
    (getOptimalConfig 3).CONCURRENCY_LIMIT = 2
    ∧ workerTargets threeRecipients 2 = [0, 1, 0]
    ∧ (workerTargets threeRecipients 2).count 0 = 2
    ∧ ¬ 2 ∈ workerTargets threeRecipients 2
    ∧ (processBatchLogs threeRecipients 2 "TEXT" (fun _ _ => .ok "wamid.X")).length = 3
    ∧ ((processBatchLogs threeRecipients 2 "TEXT" (fun _ _ => .ok "wamid.X"))[2]?).map
        MessageLog.status = some .QUEUED := by
  have h0 : retryFrom (fun _ => AttemptResult.ok "wamid.X") 0 =
      { outcome := .ok "wamid.X", attemptsMade := 1, waitsMs := [] } :=
    retryFrom_ok _ 0 _ rfl
  have hr2 : List.range 2 = [0, 1] := rfl
  have hr1 : List.range 1 = [0] := rfl
  refine ⟨by decide, ?_, ?_, ?_, ?_, ?_⟩ <;>
    simp [workerTargets, processBatchLogs, createdLogs, threeRecipients, batches,
      h0, hr2, hr1, sendWithRetry, applyOutcome, newQueuedLog]

/-- Claim C10: in the background bulk path the QUEUED Dispatch Record for
position p stores the normalized number formatMobileNumber(batch[p]),
while the gateway send for that same position receives the raw input
string; whenever normalization changes the string, the recorded recipient
differs from the recipient actually sent to. -/
theorem normalization_mismatch (batch : List String) (concurrencyLimit : Nat)
    (type : String) (p : Nat) (hW : 0 < concurrencyLimit) :
    ((createdLogs batch type)[p]?).map MessageLog.toNumber
      = (batch[p]?).map formatMobileNumber
    ∧ sendArgs batch concurrencyLimit = batch
    ∧ ∀ raw, batch[p]? = some raw → ¬ formatMobileNumber raw = raw →
        ¬ ((createdLogs batch type)[p]?).map MessageLog.toNumber = some raw := by
  refine ⟨?_, batches_join batch concurrencyLimit hW, ?_⟩
  · cases h : batch[p]? <;> simp [createdLogs, newQueuedLog, h]
  · intro raw hraw hne hcon
    simp [createdLogs, newQueuedLog, hraw] at hcon
    exact hne hcon

/-- Witness for C10 at the raw input 555-123-4567, whose normalized form
is 15551234567. -/
theorem normalization_mismatch_witness :
    ((createdLogs ["555-123-4567"] "TEXT")[0]?).map MessageLog.toNumber
      = (["555-123-4567"][0]?).map formatMobileNumber
    ∧ sendArgs ["555-123-4567"] 2 = ["555-123-4567"]
    ∧ ¬ ((createdLogs ["555-123-4567"] "TEXT")[0]?).map MessageLog.toNumber
        = some "555-123-4567" :=
  ⟨(normalization_mismatch ["555-123-4567"] 2 "TEXT" 0 (by decide)).1,
   (normalization_mismatch ["555-123-4567"] 2 "TEXT" 0 (by decide)).2.1,
   (normalization_mismatch ["555-123-4567"] 2 "TEXT" 0 (by decide)).2.2
     "555-123-4567" rfl (by decide)⟩

/-- The value returned by processBatchWithConcurrency
(src/services/csvProcessor.ts lines 441-445): processed is the batch
length; success and failed are accumulated per chunk from the settled
worker results. -/
structure BatchCounts where
  processed : Nat
  success : Nat
  failed : Nat
deriving DecidableEq, Repr

/-- The results.forEach counting of one chunk
(src/services/csvProcessor.ts lines 404-415): every settled worker result
increments exactly one of successCount / failedCount. A worker result is
a success exactly when its retry loop returned a value. -/
def countChunkResults (acc : Nat × Nat) (chunk : List Bool) : Nat × Nat :=
  chunk.foldl (fun a ok => if ok then (a.1 + 1, a.2) else (a.1, a.2 + 1)) acc

/-- processBatchWithConcurrency viewed through its counters: the batch is
split into concurrency chunks and each chunk result list is counted
(src/services/csvProcessor.ts lines 313-445). The Bool for each recipient
tells whether its worker succeeded. -/
def processBatchCounts (outs : List Bool) (concurrencyLimit : Nat) : BatchCounts :=
  let sf := (batches outs concurrencyLimit).foldl countChunkResults (0, 0)
  { processed := outs.length, success := sf.1, failed := sf.2 }

/-- The running counters of processBulkMessagesInBackground
(src/services/csvProcessor.ts lines 222-224). -/
structure OpCounters where
  processedCount : Nat
  successCount : Nat
  failedCount : Nat
deriving DecidableEq, Repr

/-- One iteration of the batch loop: processedCount += batch.processed,
successCount += batch.success, failedCount += batch.failed
(src/services/csvProcessor.ts lines 239-242). -/
def stepCounters (acc : OpCounters) (bc : BatchCounts) : OpCounters :=
  { processedCount := acc.processedCount + bc.processed,
    successCount := acc.successCount + bc.success,
    failedCount := acc.failedCount + bc.failed }

/-- The successive counter states of one run: the state before any batch
and the state after each batch, in order. -/
def statesFrom (outcome : String → Bool) (concurrencyLimit : Nat) (acc : OpCounters) :
    List (List String) → List OpCounters
  | [] => [acc]
  | b :: bs =>
    acc :: statesFrom outcome concurrencyLimit
      (stepCounters acc (processBatchCounts (b.map outcome) concurrencyLimit)) bs

/-- The counter states of processBulkMessagesInBackground for a recipient
list, starting from the zero counters of the created Operation, using the
batch size and concurrency width of getOptimalConfig
(src/services/csvProcessor.ts lines 195-261). -/
def opStates (numbers : List String) (outcome : String → Bool) : List OpCounters :=
  statesFrom outcome (getOptimalConfig numbers.length).CONCURRENCY_LIMIT ⟨0, 0, 0⟩
    (batches numbers (getOptimalConfig numbers.length).BATCH_SIZE)

/-- The batch indices at which the Operation record is saved: every third
batch and the final batch (src/services/csvProcessor.ts line 250). -/
def savedBatchIdxs (nBatches : Nat) : List Nat :=
  (List.range nBatches).filter (fun i => i % 3 = 0 ∨ i = nBatches - 1)

/-- The counters persisted at each save of the Operation record: the
state after batch i, for each saved batch index i. -/
def savedCheckpoints (numbers : List String) (outcome : String → Bool) : List OpCounters :=
  (savedBatchIdxs (batches numbers (getOptimalConfig numbers.length).BATCH_SIZE).length).map
    (fun i => (opStates numbers outcome).getD (i + 1) ⟨0, 0, 0⟩)

/-- The counters at the terminal transition (after the last batch). -/
def terminalCounters (numbers : List String) (outcome : String → Bool) : OpCounters :=
  (opStates numbers outcome).getLast (by
    unfold opStates
    cases batches numbers (getOptimalConfig numbers.length).BATCH_SIZE <;>
      simp [statesFrom])

/-- successCount + failedCount, the quantity claim C3 says never
decreases. -/
def sfSum (c : OpCounters) : Nat :=
  c.successCount + c.failedCount

theorem countChunkResults_spec (chunk : List Bool) (acc : Nat × Nat) :
    (countChunkResults acc chunk).1 + (countChunkResults acc chunk).2
      = acc.1 + acc.2 + chunk.length := by
  induction chunk generalizing acc with
  | nil => simp [countChunkResults]
  | cons ok chunk ih =>
    cases ok <;> simp [countChunkResults] at ih ⊢ <;> rw [ih] <;> omega

theorem foldl_countChunkResults_spec (chunks : List (List Bool)) (acc : Nat × Nat) :
    (chunks.foldl countChunkResults acc).1 + (chunks.foldl countChunkResults acc).2
      = acc.1 + acc.2 + (chunks.map List.length).sum := by
  induction chunks generalizing acc with
  | nil => simp
  | cons chunk chunks ih =>
    simp only [List.foldl_cons, List.map_cons, List.sum_cons]
    rw [ih, countChunkResults_spec]
    omega

theorem batches_length_sum (xs : List α) (b : Nat) (hb : 0 < b) :
    ((batches xs b).map List.length).sum = xs.length := by
  have h := congrArg List.length (batches_join xs b hb)
  simpa [List.length_flatten] using h

/-- For a positive concurrency width, each batch reports
success + failed = processed = batch length: every recipient of the batch
is counted exactly once. -/
theorem processBatchCounts_spec (outs : List Bool) (concurrencyLimit : Nat)
    (hW : 0 < concurrencyLimit) :
    (processBatchCounts outs concurrencyLimit).success
        + (processBatchCounts outs concurrencyLimit).failed
      = (processBatchCounts outs concurrencyLimit).processed
    ∧ (processBatchCounts outs concurrencyLimit).processed = outs.length := by
  refine ⟨?_, rfl⟩
  simp only [processBatchCounts]
  rw [foldl_countChunkResults_spec, batches_length_sum outs concurrencyLimit hW]
  simp

theorem statesFrom_inv (outcome : String → Bool) (concurrencyLimit : Nat)
    (hW : 0 < concurrencyLimit) (bs : List (List String)) (acc : OpCounters)
    (hacc : acc.processedCount = acc.successCount + acc.failedCount) :
    ∀ s ∈ statesFrom outcome concurrencyLimit acc bs,
      s.processedCount = s.successCount + s.failedCount := by
  induction bs generalizing acc with
  | nil => simpa [statesFrom] using hacc
  | cons b bs ih =>
    intro s hs
    rcases List.mem_cons.mp hs with rfl | hs
    · exact hacc
    · refine ih _ ?_ s hs
      have h := processBatchCounts_spec (b.map outcome) concurrencyLimit hW
      simp only [stepCounters, hacc]
      omega

theorem statesFrom_bound (outcome : String → Bool) (concurrencyLimit : Nat)
    (bs : List (List String)) (acc : OpCounters) :
    ∀ s ∈ statesFrom outcome concurrencyLimit acc bs,
      s.processedCount ≤ acc.processedCount + (bs.map List.length).sum := by
  induction bs generalizing acc with
  | nil =>
    intro s hs
    simp only [statesFrom, List.mem_singleton] at hs
    simp [hs]
  | cons b bs ih =>
    intro s hs
    rcases List.mem_cons.mp hs with rfl | hs
    · omega
    · have h := ih (stepCounters acc (processBatchCounts (b.map outcome) concurrencyLimit)) s hs
      simp only [stepCounters, processBatchCounts, List.length_map] at h
      simp only [List.map_cons, List.sum_cons]
      omega

theorem statesFrom_succ_le (outcome : String → Bool) (concurrencyLimit : Nat)
    (bs : List (List String)) (acc : OpCounters) (k : Nat)
    (hk : k + 1 < (statesFrom outcome concurrencyLimit acc bs).length) :
    sfSum ((statesFrom outcome concurrencyLimit acc bs).getD k ⟨0, 0, 0⟩)
      ≤ sfSum ((statesFrom outcome concurrencyLimit acc bs).getD (k + 1) ⟨0, 0, 0⟩) := by
  induction bs generalizing acc k with
  | nil => simp [statesFrom] at hk
  | cons b bs ih =>
    cases k with
    | zero =>
      have hhead : ∀ acc2 bs2,
          (statesFrom outcome concurrencyLimit acc2 bs2).getD 0 ⟨0, 0, 0⟩ = acc2 := by
        intro acc2 bs2
        cases bs2 <;> simp [statesFrom]
      simp only [statesFrom, List.getD_cons_zero, List.getD_cons_succ, hhead]
      simp only [sfSum, stepCounters]
      omega
    | succ k =>
      simp only [statesFrom, List.getD_cons_succ]
      refine ih _ k ?_
      simpa [statesFrom] using hk

theorem statesFrom_mono (outcome : String → Bool) (concurrencyLimit : Nat)
    (bs : List (List String)) (acc : OpCounters) (i j : Nat) (hij : i ≤ j)
    (hj : j < (statesFrom outcome concurrencyLimit acc bs).length) :
    sfSum ((statesFrom outcome concurrencyLimit acc bs).getD i ⟨0, 0, 0⟩)
      ≤ sfSum ((statesFrom outcome concurrencyLimit acc bs).getD j ⟨0, 0, 0⟩) := by
  induction j with
  | zero =>
    have : i = 0 := by omega
    simp [this]
  | succ j ih =>
    rcases Nat.lt_or_ge i (j + 1) with hi | hi
    · exact le_trans (ih (by omega) (by omega))
        (statesFrom_succ_le outcome concurrencyLimit bs acc j hj)
    · have : i = j + 1 := by omega
      simp [this]

theorem getOptimalConfig_pos (n : Nat) :
    0 < (getOptimalConfig n).CONCURRENCY_LIMIT ∧ 0 < (getOptimalConfig n).BATCH_SIZE := by
  unfold getOptimalConfig
  split
  · decide
  · split
    · decide
    · split
      · decide
      · split
        · decide
        · split <;> decide

/-- Claim C3: at every checkpoint where the Operation record is saved and
at the terminal state, processedCount = successCount + failedCount and
processedCount is at most the recipient count; and along the run the
quantity successCount + failedCount never decreases. -/
theorem op_counters_invariant (numbers : List String) (outcome : String → Bool) :
    (∀ c ∈ savedCheckpoints numbers outcome,
      c.processedCount = c.successCount + c.failedCount
        ∧ c.processedCount ≤ numbers.length)
    ∧ ((terminalCounters numbers outcome).processedCount
          = (terminalCounters numbers outcome).successCount
            + (terminalCounters numbers outcome).failedCount
        ∧ (terminalCounters numbers outcome).processedCount ≤ numbers.length)
    ∧ (∀ i j, i ≤ j → j < (opStates numbers outcome).length →
        sfSum ((opStates numbers outcome).getD i ⟨0, 0, 0⟩)
          ≤ sfSum ((opStates numbers outcome).getD j ⟨0, 0, 0⟩)) := by
  have hW := (getOptimalConfig_pos numbers.length).1
  have hB := (getOptimalConfig_pos numbers.length).2
  have hmem : ∀ c ∈ opStates numbers outcome,
      c.processedCount = c.successCount + c.failedCount
        ∧ c.processedCount ≤ numbers.length := by
    intro c hc
    refine ⟨statesFrom_inv outcome _ hW _ ⟨0, 0, 0⟩ rfl c hc, ?_⟩
    have h := statesFrom_bound outcome (getOptimalConfig numbers.length).CONCURRENCY_LIMIT
      (batches numbers (getOptimalConfig numbers.length).BATCH_SIZE) ⟨0, 0, 0⟩ c hc
    rw [batches_length_sum numbers _ hB] at h
    simpa using h
  refine ⟨?_, ?_, ?_⟩
  · intro c hc
    obtain ⟨i, _, rfl⟩ := List.mem_map.mp hc
    by_cases hi : i + 1 < (opStates numbers outcome).length
    · exact hmem _ (by
        rw [List.getD_eq_getElem _ _ hi]
        exact List.getElem_mem _)
    · rw [List.getD_eq_default _ _ (by omega)]
      exact ⟨rfl, Nat.zero_le _⟩
  · exact hmem _ (List.getLast_mem _)
  · intro i j hij hj
    exact statesFrom_mono outcome _ _ ⟨0, 0, 0⟩ i j hij hj

/-- Witness for C3 on a concrete three-recipient all-success run. -/
theorem op_counters_invariant_witness :
    sfSum ((opStates threeRecipients (fun _ => true)).getD 0 ⟨0, 0, 0⟩)
      ≤ sfSum ((opStates threeRecipients (fun _ => true)).getD 1 ⟨0, 0, 0⟩) :=
  (op_counters_invariant threeRecipients (fun _ => true)).2.2 0 1 (by decide)
    (by simp [opStates, threeRecipients, batches, statesFrom, getOptimalConfig])

/-- The BulkOperation fields written by the terminal transitions of
processBulkMessagesInBackground (src/models/BulkOperation.ts,
src/services/csvProcessor.ts lines 263-278). completedAtWrites counts the
assignments to completedAt during the run. -/
structure OpRecord where
  status : OpStatus
  counters : OpCounters
  error : Option String
  completedAtWrites : Nat
deriving Repr

/-- Number of batches of a run. -/
def nBatches (numbers : List String) : Nat :=
  (batches numbers (getOptimalConfig numbers.length).BATCH_SIZE).length

/-- The try/catch skeleton of processBulkMessagesInBackground
(src/services/csvProcessor.ts lines 208-278). Per-recipient send failures
happen inside the worker try/catch (lines 328-397) and become FAILED
result values, so they are part of the outcome oracle, not exceptions;
fault models an engine-level exception (e.g. a failing insertMany or
save) thrown at the start of batch k, with msg the String(error) recorded
by the catch block. The catch sets status FAILED, error and completedAt;
the normal exit sets status COMPLETED and completedAt. Either way
completedAt is assigned exactly once. -/
def runBackground (numbers : List String) (outcome : String → Bool)
    (fault : Option (Nat × String)) : OpRecord :=
  match fault with
  | some (k, msg) =>
    if k < nBatches numbers then
      { status := .FAILED,
        counters := (opStates numbers outcome).getD k ⟨0, 0, 0⟩,
        error := some msg,
        completedAtWrites := 1 }
    else
      { status := .COMPLETED, counters := terminalCounters numbers outcome,
        error := none, completedAtWrites := 1 }
  | none =>
    { status := .COMPLETED, counters := terminalCounters numbers outcome,
      error := none, completedAtWrites := 1 }

/-- Claim C6: per-recipient failures never make the Operation FAILED - a
run without engine fault ends COMPLETED whatever the per-recipient
outcomes (including all-failed); only an engine-level fault yields
FAILED, and then the fault message is recorded (non-empty when the thrown
message is) and completedAt is set; completedAt is assigned exactly once
in every run. -/
theorem op_lifecycle (numbers : List String) (outcome : String → Bool) :
    ((runBackground numbers outcome none).status = .COMPLETED
      ∧ (runBackground numbers outcome none).error = none
      ∧ (runBackground numbers outcome none).completedAtWrites = 1)
    ∧ (∀ k msg, k < nBatches numbers →
        (runBackground numbers outcome (some (k, msg))).status = .FAILED
        ∧ (runBackground numbers outcome (some (k, msg))).error = some msg
        ∧ (¬ msg = "" →
            ∃ e, (runBackground numbers outcome (some (k, msg))).error = some e ∧ ¬ e = "")
        ∧ (runBackground numbers outcome (some (k, msg))).completedAtWrites = 1)
    ∧ ∀ fault, (runBackground numbers outcome fault).completedAtWrites = 1 := by
  refine ⟨⟨rfl, rfl, rfl⟩, ?_, ?_⟩
  · intro k msg hk
    refine ⟨?_, ?_, ?_, ?_⟩ <;> simp [runBackground, hk]
  · intro fault
    rcases fault with _ | ⟨k, msg⟩
    · rfl
    · by_cases hk : k < nBatches numbers <;> simp [runBackground, hk]

/-- Witness for C6: a one-recipient all-fail run ends COMPLETED, and an
engine fault at batch 0 ends FAILED with the fault message recorded. -/
theorem op_lifecycle_witness :
    (runBackground ["15551234001"] (fun _ => false) none).status = .COMPLETED
    ∧ (runBackground ["15551234001"] (fun _ => false)
        (some (0, "MongoNetworkError"))).status = .FAILED
    ∧ (runBackground ["15551234001"] (fun _ => false)
        (some (0, "MongoNetworkError"))).error = some "MongoNetworkError"
    ∧ (runBackground ["15551234001"] (fun _ => false)
        (some (0, "MongoNetworkError"))).completedAtWrites = 1 :=
  ⟨(op_lifecycle ["15551234001"] (fun _ => false)).1.1,
   ((op_lifecycle ["15551234001"] (fun _ => false)).2.1 0 "MongoNetworkError"
     (by simp [nBatches, batches, getOptimalConfig])).1,
   ((op_lifecycle ["15551234001"] (fun _ => false)).2.1 0 "MongoNetworkError"
     (by simp [nBatches, batches, getOptimalConfig])).2.1,
   ((op_lifecycle ["15551234001"] (fun _ => false)).2.1 0 "MongoNetworkError"
     (by simp [nBatches, batches, getOptimalConfig])).2.2.2⟩

/-- What the engine observably does with the prepared bulkUpdates of one
batch: which updates reach the store, how many individual failures are
only logged, and whether an exception escapes the handler. -/
structure UpdateReport where
  applied : List Nat
  loggedFailures : Nat
  aborted : Bool
deriving DecidableEq, Repr

/-- The batch-update block of processBatchWithConcurrency
(src/services/csvProcessor.ts lines 423-439): when bulkUpdates is
non-empty, bulkWrite is tried; if it fails, each update is retried
individually with its own try/catch that only logs the individual
failure. No exception escapes, so the batch loop continues. bulkWriteOk
and individualOk are store oracles. -/
def flushBatchUpdates (updates : List Nat) (bulkWriteOk : Bool)
    (individualOk : Nat → Bool) : UpdateReport :=
  if 0 < updates.length then
    if bulkWriteOk then
      { applied := updates, loggedFailures := 0, aborted := false }
    else
      { applied := updates.filter (fun u => individualOk u),
        loggedFailures := (updates.filter (fun u => ! individualOk u)).length,
        aborted := false }
  else
    { applied := [], loggedFailures := 0, aborted := false }

/-- The batch-update block of the csv-bulk-document route
(src/routes/send.ts lines 1027-1035): the catch around bulkWrite only
logs the error - there is NO per-record fallback in this path. -/
def flushBatchUpdatesDocRoute (updates : List Nat) (bulkWriteOk : Bool) : UpdateReport :=
  if 0 < updates.length then
    if bulkWriteOk then
      { applied := updates, loggedFailures := 0, aborted := false }
    else
      { applied := [], loggedFailures := 1, aborted := false }
  else
    { applied := [], loggedFailures := 0, aborted := false }

theorem length_filter_add_length_filter_not (l : List Nat) (p : Nat → Bool) :
    (l.filter p).length + (l.filter (fun u => ! p u)).length = l.length := by
  induction l with
  | nil => simp
  | cons a l ih =>
    cases h : p a <;> simp [List.filter_cons, h] <;> omega

/-- Counterexample to claim C9 as stated: in the csv-bulk-document route
a failing bulk update is only logged - none of the two pending record
updates is applied individually (the run still continues). -/
theorem bulk_update_fallback_cex :
    (flushBatchUpdatesDocRoute [0, 1] false).applied = []
    ∧ ¬ (flushBatchUpdatesDocRoute [0, 1] false).applied = [0, 1]
    ∧ (flushBatchUpdatesDocRoute [0, 1] false).aborted = false := by
  decide

/-- Claim C9, amended: in the background bulk path
(processBatchWithConcurrency) a failing bulk update degrades to
per-record updates - every pending update is attempted individually,
the ones that fail are only logged, and no exception escapes, so the
batch loop continues and the Operation does not become FAILED because of
the bulk-update failure. In the csv-bulk-document route the failure is
only logged, with no per-record fallback, though that run continues as
well. -/
theorem bulk_update_fallback (updates : List Nat) (individualOk : Nat → Bool) :
    ((flushBatchUpdates updates false individualOk).applied
        = updates.filter (fun u => individualOk u)
      ∧ (flushBatchUpdates updates false individualOk).applied.length
          + (flushBatchUpdates updates false individualOk).loggedFailures
        = updates.length
      ∧ (flushBatchUpdates updates false individualOk).aborted = false)
    ∧ ((flushBatchUpdatesDocRoute updates false).applied = []
      ∧ (flushBatchUpdatesDocRoute updates false).aborted = false)
    ∧ ∀ numbers outcome, (runBackground numbers outcome none).status = OpStatus.COMPLETED := by
  refine ⟨?_, ?_, fun numbers outcome => rfl⟩
  · by_cases h : 0 < updates.length
    · refine ⟨by simp [flushBatchUpdates, h], ?_, by simp [flushBatchUpdates, h]⟩
      simp only [flushBatchUpdates, if_pos h, if_neg Bool.false_ne_true]
      exact length_filter_add_length_filter_not updates individualOk
    · have h0 : updates = [] := by
        cases updates with
        | nil => rfl
        | cons a l => simp at h
      subst h0
      exact ⟨by simp [flushBatchUpdates], by simp [flushBatchUpdates], by simp [flushBatchUpdates]⟩
  · by_cases h : 0 < updates.length <;>
      exact ⟨by simp [flushBatchUpdatesDocRoute, h], by simp [flushBatchUpdatesDocRoute, h]⟩

end BulkDispatch
